import Mathlib

/-!
Shallow embedding of the non-blocking DMA-based I2C master driver
(`src/i2c/dma.rs` of `stm32f4xx-hal`).

Modelling conventions:
* The driver struct `I2CMasterDma` is embedded as `DriverState`; each `Option`
  field of the Rust struct becomes a `Bool` (`true` = `Some`).  The transfer
  objects, streams and peripheral-side endpoints carry no data relevant to the
  verified properties, so only their presence is tracked.
* Every hardware access (register writes, flag clears, DMA start) and every
  user-visible action (callback invocation) is recorded, in program order, in a
  `List Event` trace returned next to the new state.
* Busy-wait loops poll `check_and_clear_error_flags` until a flag is seen or an
  error is returned; the outcome of such a waiting phase is a `PrepResult`
  oracle argument (`.ok` = the awaited flag eventually appeared, `.err e` =
  the poll surfaced bus error `e`).  DMA stream flags read by
  `handle_dma_interrupt` are a `DmaFlags` oracle argument.
* A Rust panic (failed `assert!` or `unwrap` on `None`) is `Option.none`.
-/

namespace I2cDma

/-- `i2c::NoAcknowledgeSource`: which phase of a transaction was not acknowledged. -/
inductive NackSource
  | address
  | data
  | unknown
deriving DecidableEq, Repr

/-- `i2c::Error`: errors of the underlying blocking I2C driver. -/
inductive I2cError
  | overrun
  | noAcknowledge (src : NackSource)
  | timeout
  | bus
  | crc
  | arbitrationLoss
deriving DecidableEq, Repr

/-- `i2c::dma::Error`: an underlying driver error or a DMA transfer error. -/
inductive Error
  | i2cError (e : I2cError)
  | transferError
deriving DecidableEq, Repr

/-- `Result<(), Error>`, the value handed to the completion callback. -/
inductive TxnResult
  | ok
  | err (e : Error)
deriving DecidableEq, Repr

/-- `Result<(), i2c::Error>` of the bus-sequencing primitives; also the outcome
of one `check_and_clear_error_flags` waiting phase (hardware oracle). -/
inductive PrepResult
  | ok
  | err (e : I2cError)
deriving DecidableEq, Repr

/-- `nb::Result<(), i2c::Error>` returned by the public API. -/
inductive NbResult
  | ok
  | wouldBlock
  | other (e : I2cError)
deriving DecidableEq, Repr

/-- Observable actions toward the hardware and the user, in program order. -/
inductive Event
  | dmaEnable
  | dmaDisable
  | errIntEnable
  | errIntDisable
  | startSet
  | ackSet
  | ackClear
  | addrSent (addr : Nat) (read : Bool)
  | sr2Read
  | stopSet
  | btfWait
  | callback (r : TxnResult)
  | txCreated
  | txDestroyed
  | txStarted
  | rxCreated
  | rxDestroyed
  | rxStarted
  | clearFifoErrorTx
  | clearTransferErrorTx
  | clearTransferCompleteTx
  | clearFifoErrorRx
  | clearTransferErrorRx
  | clearTransferCompleteRx
deriving DecidableEq, Repr

/-- The fields of `I2CMasterDma`.  Each `Option` field of the source struct is
tracked as a `Bool` (`true` = `Some`). -/
structure DriverState where
  callback : Bool
  address : Nat
  rx_len : Nat
  tx : Bool
  tx_stream : Bool
  tx_transfer : Bool
  rx : Bool
  rx_stream : Bool
  rx_transfer : Bool
deriving DecidableEq, Repr

/-- DMA stream interrupt flags read by `handle_dma_interrupt` (hardware oracle). -/
structure DmaFlags where
  txFifoError : Bool
  txTransferError : Bool
  txTransferComplete : Bool
  rxFifoError : Bool
  rxTransferError : Bool
  rxTransferComplete : Bool
deriving DecidableEq, Repr

/-- Modelled from the spec: `i2c::Error::nack_addr` lives outside `src/`.
Spec section 4.2: `send_address` works by "translating a not-acknowledged
condition into a distinguished NACK-on-address error". -/
def nack_addr : I2cError → I2cError
  | .noAcknowledge _ => .noAcknowledge NackSource.address
  | e => e

/-- `send_start(read)`: set START, pre-arm ACK when a read is expected, then
busy-wait (SB, then MSL/BUSY) on `check_and_clear_error_flags`; `chk` is the
outcome of that waiting phase. -/
def send_start (read : Bool) (chk : PrepResult) : PrepResult × List Event :=
  (chk, Event.startSet :: (if read then [Event.ackSet] else []))

/-- `send_address(addr, read)`: write the address byte to DR, then busy-wait for
ADDR, mapping a surfaced error through `nack_addr`. -/
def send_address (addr : Nat) (read : Bool) (chk : PrepResult) :
    PrepResult × List Event :=
  (match chk with
   | .ok => .ok
   | .err e => .err (nack_addr e),
   [Event.addrSent addr read])

/-- `send_stop()`: set the STOP bit, fire-and-forget. -/
def send_stop : List Event := [Event.stopSet]

/-- `prepare_write(addr)`: start, address (write direction), clear ADDR by
reading SR2, enable error interrupt generation. -/
def prepare_write (addr : Nat) (startChk addrChk : PrepResult) :
    PrepResult × List Event :=
  match send_start false startChk with
  | (.err e, ev) => (.err e, ev)
  | (.ok, ev1) =>
    match send_address addr false addrChk with
    | (.err e, ev2) => (.err e, ev1 ++ ev2)
    | (.ok, ev2) => (.ok, ev1 ++ ev2 ++ [Event.sr2Read, Event.errIntEnable])

/-- `prepare_read(addr, buf_len)`: start, address (read direction), clear the
ACK bit first when `buf_len <= 1`, clear ADDR by reading SR2, enable error
interrupt generation. -/
def prepare_read (addr : Nat) (buf_len : Nat) (startChk addrChk : PrepResult) :
    PrepResult × List Event :=
  match send_start true startChk with
  | (.err e, ev) => (.err e, ev)
  | (.ok, ev1) =>
    match send_address addr true addrChk with
    | (.err e, ev2) => (.err e, ev1 ++ ev2)
    | (.ok, ev2) =>
      (.ok, ev1 ++ ev2 ++ (if buf_len ≤ 1 then [Event.ackClear] else [])
        ++ [Event.sr2Read, Event.errIntEnable])

/-- `call_callback_once`: `self.callback.take()` and invoke it when present. -/
def call_callback_once (s : DriverState) (res : TxnResult) :
    DriverState × List Event :=
  if s.callback then ({ s with callback := false }, [Event.callback res])
  else (s, [])

/-- `create_tx_transfer`: asserts the endpoint and stream are present, moves
them into a live transfer.  `none` is the panic of a failed assertion. -/
def create_tx_transfer (s : DriverState) : Option (DriverState × List Event) :=
  if s.tx && s.tx_stream then
    some ({ s with tx := false, tx_stream := false, tx_transfer := true },
      [Event.txCreated])
  else none

/-- `destroy_tx_transfer`: asserts a live transfer, releases it back to the
stream and endpoint slots. -/
def destroy_tx_transfer (s : DriverState) : Option (DriverState × List Event) :=
  if s.tx_transfer then
    some ({ s with tx_transfer := false, tx := true, tx_stream := true },
      [Event.txDestroyed])
  else none

/-- `create_rx_transfer`: receive-side counterpart of `create_tx_transfer`. -/
def create_rx_transfer (s : DriverState) : Option (DriverState × List Event) :=
  if s.rx && s.rx_stream then
    some ({ s with rx := false, rx_stream := false, rx_transfer := true },
      [Event.rxCreated])
  else none

/-- `destroy_rx_transfer`: receive-side counterpart of `destroy_tx_transfer`. -/
def destroy_rx_transfer (s : DriverState) : Option (DriverState × List Event) :=
  if s.rx_transfer then
    some ({ s with rx_transfer := false, rx := true, rx_stream := true },
      [Event.rxDestroyed])
  else none

/-- The `if let Err(Error::I2CError(Error::NoAcknowledge(_)))` guard of
`finish_transfer_with_result`: STOP is issued exactly on a NACK result. -/
def stop_on_nack (result : TxnResult) : List Event :=
  match result with
  | .err (Error.i2cError (I2cError.noAcknowledge _)) => send_stop
  | _ => []

/-- `finish_transfer_with_result`: disable DMA requests and error interrupts,
issue STOP on a NACK result, invoke the callback once, then destroy whichever
transfer objects still exist.  The destroys are guarded by `is_some` checks in
the source, so this function never panics. -/
def finish_transfer_with_result (s : DriverState) (result : TxnResult) :
    DriverState × List Event :=
  let stopEv : List Event := stop_on_nack result
  let cb := call_callback_once s result
  let afterTx : DriverState × List Event :=
    if cb.1.tx_transfer then
      match destroy_tx_transfer cb.1 with
      | some r => r
      | none => (cb.1, [])
    else (cb.1, [])
  let afterRx : DriverState × List Event :=
    if afterTx.1.rx_transfer then
      match destroy_rx_transfer afterTx.1 with
      | some r => r
      | none => (afterTx.1, [])
    else (afterTx.1, [])
  (afterRx.1,
    Event.dmaDisable :: Event.errIntDisable :: stopEv
      ++ cb.2 ++ afterTx.2 ++ afterRx.2)

/-- `handle_dma_interrupt`: inspect the stream flags of whichever transfer is
live (Tx takes priority), clear and act on the first one set.  `startChk` and
`addrChk` feed the `prepare_read` issued on the write-then-read restart path.
`none` is a panic (the `unwrap` of `rx_transfer` on that path). -/
def handle_dma_interrupt (s : DriverState) (f : DmaFlags)
    (startChk addrChk : PrepResult) : Option (DriverState × List Event) :=
  if s.tx_transfer then
    if f.txFifoError then
      some (s, [Event.clearFifoErrorTx])
    else if f.txTransferError then
      let r := finish_transfer_with_result s (.err Error.transferError)
      some (r.1, Event.clearTransferErrorTx :: r.2)
    else if f.txTransferComplete then
      let have_read_after := s.rx_transfer
      match destroy_tx_transfer s with
      | none => none
      | some (s1, ev1) =>
        if have_read_after then
          match prepare_read s.address s.rx_len startChk addrChk with
          | (.ok, evp) =>
            if s1.rx_transfer then
              some (s1, Event.clearTransferCompleteTx :: ev1
                ++ [Event.btfWait] ++ evp ++ [Event.rxStarted])
            else none
          | (.err e, evp) =>
            let r := finish_transfer_with_result s1 (.err (Error.i2cError e))
            if r.1.rx_transfer then
              some (r.1, Event.clearTransferCompleteTx :: ev1
                ++ [Event.btfWait] ++ evp ++ r.2 ++ [Event.rxStarted])
            else none
        else
          let r := finish_transfer_with_result s1 .ok
          some (r.1, Event.clearTransferCompleteTx :: ev1 ++ r.2
            ++ [Event.btfWait] ++ send_stop)
    else
      some (s, [])
  else if s.rx_transfer then
    if f.rxFifoError then
      some (s, [Event.clearFifoErrorRx])
    else if f.rxTransferError then
      let r := finish_transfer_with_result s (.err Error.transferError)
      some (r.1, Event.clearTransferErrorRx :: r.2)
    else if f.rxTransferComplete then
      let r := finish_transfer_with_result s .ok
      some (r.1, Event.clearTransferCompleteRx :: r.2
        ++ [Event.ackClear] ++ send_stop)
    else
      some (s, [])
  else
    some (s, [])

/-- `handle_error_interrupt`: check-and-clear the I2C error flags; finalize
with the surfaced error when one is present. -/
def handle_error_interrupt (s : DriverState) (chk : PrepResult) :
    DriverState × List Event :=
  match chk with
  | .err e => finish_transfer_with_result s (.err (Error.i2cError e))
  | .ok => (s, [])

/-- `write_dma`: busy check, enable DMA requests, create the Tx transfer, store
the callback, `prepare_write`, then start the transfer.  `busy` is the SR2 BUSY
bit at entry. -/
def write_dma (s : DriverState) (busy : Bool) (addr : Nat) (cb : Bool)
    (startChk addrChk : PrepResult) :
    Option (NbResult × DriverState × List Event) :=
  if busy then
    some (NbResult.wouldBlock, s, [])
  else
    match create_tx_transfer s with
    | none => none
    | some (s1, ev1) =>
      let s2 := { s1 with callback := cb }
      match prepare_write addr startChk addrChk with
      | (.err e, evp) =>
        let r := finish_transfer_with_result s2 (.err (Error.i2cError e))
        some (NbResult.other e, r.1, Event.dmaEnable :: ev1 ++ evp ++ r.2)
      | (.ok, evp) =>
        if s2.tx_transfer then
          some (NbResult.ok, s2, Event.dmaEnable :: ev1 ++ evp ++ [Event.txStarted])
        else none

/-- `read_dma`: busy check, enable DMA requests, create the Rx transfer, store
the callback, `prepare_read`, then start the transfer. -/
def read_dma (s : DriverState) (busy : Bool) (addr : Nat) (buf_len : Nat)
    (cb : Bool) (startChk addrChk : PrepResult) :
    Option (NbResult × DriverState × List Event) :=
  if busy then
    some (NbResult.wouldBlock, s, [])
  else
    match create_rx_transfer s with
    | none => none
    | some (s1, ev1) =>
      let s2 := { s1 with callback := cb }
      match prepare_read addr buf_len startChk addrChk with
      | (.err e, evp) =>
        let r := finish_transfer_with_result s2 (.err (Error.i2cError e))
        some (NbResult.other e, r.1, Event.dmaEnable :: ev1 ++ evp ++ r.2)
      | (.ok, evp) =>
        if s2.rx_transfer then
          some (NbResult.ok, s2, Event.dmaEnable :: ev1 ++ evp ++ [Event.rxStarted])
        else none

/-- `write_read_dma`: busy check, record address and receive length, enable DMA
requests, create both transfers (Rx not started), store the callback,
`prepare_write`, then start only the Tx transfer. -/
def write_read_dma (s : DriverState) (busy : Bool) (addr : Nat) (rxLen : Nat)
    (cb : Bool) (startChk addrChk : PrepResult) :
    Option (NbResult × DriverState × List Event) :=
  if busy then
    some (NbResult.wouldBlock, s, [])
  else
    let s0 := { s with address := addr, rx_len := rxLen }
    match create_tx_transfer s0 with
    | none => none
    | some (s1, ev1) =>
      match create_rx_transfer s1 with
      | none => none
      | some (s2, ev2) =>
        let s3 := { s2 with callback := cb }
        match prepare_write addr startChk addrChk with
        | (.err e, evp) =>
          let r := finish_transfer_with_result s3 (.err (Error.i2cError e))
          some (NbResult.other e, r.1,
            Event.dmaEnable :: ev1 ++ ev2 ++ evp ++ r.2)
        | (.ok, evp) =>
          if s3.tx_transfer then
            some (NbResult.ok, s3,
              Event.dmaEnable :: ev1 ++ ev2 ++ evp ++ [Event.txStarted])
          else none

/-- One interrupt-context invocation: either `handle_dma_interrupt` with its
flag and oracle inputs, or `handle_error_interrupt` with its flag outcome. -/
inductive IrqCall
  | dma (f : DmaFlags) (startChk addrChk : PrepResult)
  | err (chk : PrepResult)

/-- Run a sequence of interrupt-context invocations, accumulating the trace;
`none` as soon as one of them panics. -/
def runIrqs : DriverState → List IrqCall → Option (DriverState × List Event)
  | s, [] => some (s, [])
  | s, c :: cs =>
    let step : Option (DriverState × List Event) :=
      match c with
      | .dma f a b => handle_dma_interrupt s f a b
      | .err chk => some (handle_error_interrupt s chk)
    match step with
    | none => none
    | some (s', ev) =>
      match runIrqs s' cs with
      | none => none
      | some (s'', ev') => some (s'', ev ++ ev')

/-- Is this event a callback invocation? -/
def isCallbackEvent : Event → Bool
  | Event.callback _ => true
  | _ => false

/-- The callback invocations contained in a trace, in order. -/
def callbackEvents (tr : List Event) : List Event :=
  tr.filter isCallbackEvent

/-- Both resource slots are idle: endpoint and stream present, no live
transfer — the state from which a new transfer can be activated. -/
def slots_idle (s : DriverState) : Prop :=
  s.tx = true ∧ s.tx_stream = true ∧ s.tx_transfer = false ∧
  s.rx = true ∧ s.rx_stream = true ∧ s.rx_transfer = false

/-- Slot coherence: a slot without a live transfer holds its endpoint and its
stream.  Every state reachable from `use_dma` satisfies this. -/
def slot_coherent (s : DriverState) : Prop :=
  (s.tx_transfer = false → s.tx = true ∧ s.tx_stream = true) ∧
  (s.rx_transfer = false → s.rx = true ∧ s.rx_stream = true)

end I2cDma

namespace I2cDma

/-! ## Helper lemmas -/

/-- Closed form of `finish_transfer_with_result`: the resulting state has the
callback consumed and both slots restored, and the trace lists the disables,
the conditional STOP, the conditional callback and the conditional destroys in
program order. -/
theorem finish_spec (s : DriverState) (r : TxnResult) :
    finish_transfer_with_result s r =
      ({ s with
          callback := false,
          tx := s.tx_transfer || s.tx, tx_stream := s.tx_transfer || s.tx_stream,
          tx_transfer := false,
          rx := s.rx_transfer || s.rx, rx_stream := s.rx_transfer || s.rx_stream,
          rx_transfer := false },
       Event.dmaDisable :: Event.errIntDisable :: stop_on_nack r
         ++ (if s.callback then [Event.callback r] else [])
         ++ (if s.tx_transfer then [Event.txDestroyed] else [])
         ++ (if s.rx_transfer then [Event.rxDestroyed] else [])) := by
  obtain ⟨c, ad, rl, tx, ts, tt, rx, rs, rt⟩ := s
  cases c <;> cases tt <;> cases rt <;> rfl

/-- STOP appears in the NACK-guard trace exactly for a NACK result. -/
theorem stopSet_mem_stop_on_nack (r : TxnResult) :
    Event.stopSet ∈ stop_on_nack r ↔
      ∃ src, r = TxnResult.err (Error.i2cError (I2cError.noAcknowledge src)) := by
  rcases r with _ | e
  · simp [stop_on_nack]
  · rcases e with e | _
    · rcases e with _ | src | _ | _ | _ | _ <;> simp [stop_on_nack, send_stop]
    · simp [stop_on_nack]

/-- The NACK-guard trace never contains a callback invocation. -/
theorem stop_on_nack_no_callback (r : TxnResult) :
    callbackEvents (stop_on_nack r) = [] := by
  rcases r with _ | e
  · rfl
  · rcases e with e | _
    · rcases e with _ | src | _ | _ | _ | _ <;> rfl
    · rfl

/-- The NACK-guard trace never starts the receive transfer. -/
theorem stop_on_nack_no_rxStarted (r : TxnResult) :
    Event.rxStarted ∉ stop_on_nack r := by
  rcases r with _ | e
  · simp [stop_on_nack]
  · rcases e with e | _
    · rcases e with _ | src | _ | _ | _ | _ <;> simp [stop_on_nack, send_stop]
    · simp [stop_on_nack]

/-- Finalization invokes the stored callback exactly once, with the result it
was given, and never otherwise. -/
theorem finish_callbackEvents (s : DriverState) (r : TxnResult) :
    callbackEvents (finish_transfer_with_result s r).2 =
      (if s.callback then [Event.callback r] else []) := by
  rw [finish_spec]
  simp only [callbackEvents, List.filter_append, List.filter_cons, List.filter_nil]
  rw [show List.filter isCallbackEvent (stop_on_nack r) = [] from stop_on_nack_no_callback r]
  cases hc : s.callback <;> cases ht : s.tx_transfer <;> cases hr : s.rx_transfer <;>
    simp [isCallbackEvent]

/-- Finalization consumes the stored callback. -/
theorem finish_callback_consumed (s : DriverState) (r : TxnResult) :
    (finish_transfer_with_result s r).1.callback = false := by
  rw [finish_spec]

/-- Finalization destroys any live receive transfer. -/
theorem finish_rx_transfer_destroyed (s : DriverState) (r : TxnResult) :
    (finish_transfer_with_result s r).1.rx_transfer = false := by
  rw [finish_spec]

/-- Finalization never starts the receive transfer. -/
theorem finish_no_rxStarted (s : DriverState) (r : TxnResult) :
    Event.rxStarted ∉ (finish_transfer_with_result s r).2 := by
  rw [finish_spec]
  simp only [List.mem_cons, List.mem_append, not_or]
  exact ⟨⟨⟨⟨by simp, by simp, stop_on_nack_no_rxStarted r⟩, by split <;> simp⟩,
    by split <;> simp⟩, by split <;> simp⟩

/-- `prepare_write` only touches the bus-sequencing registers: it never starts
the receive transfer. -/
theorem prepare_write_no_rxStarted (addr : Nat) (a b : PrepResult) :
    Event.rxStarted ∉ (prepare_write addr a b).2 := by
  rcases a with _ | ea <;> rcases b with _ | eb <;>
    simp [prepare_write, send_start, send_address]

/-- `prepare_read` never starts the receive transfer either. -/
theorem prepare_read_no_rxStarted (addr n : Nat) (a b : PrepResult) :
    Event.rxStarted ∉ (prepare_read addr n a b).2 := by
  rcases a with _ | ea <;> rcases b with _ | eb <;>
    simp [prepare_read, send_start, send_address]

/-! ## Claims -/

/-- C5: the claim asserts that in the Tx transfer-complete branch with a
pending Rx transfer, `rx_transfer` is still `Some` at the point the handler
calls `start` on it for every outcome of the preceding `prepare_read`, so the
`unwrap` cannot fail.  The code contradicts this: when `prepare_read` fails,
`finish_transfer_with_result` destroys the pending Rx transfer and the handler
then unconditionally unwraps `rx_transfer`, which panics (`= none` in this
model).  Failing input: a write-read transaction whose Tx phase completed
(transfer-complete flag set) and whose restart `prepare_read` surfaces a NACK. -/
theorem c5_unwrap_panics_on_prepare_read_failure :
    handle_dma_interrupt
      { callback := true, address := 80, rx_len := 2,
        tx := false, tx_stream := false, tx_transfer := true,
        rx := false, rx_stream := false, rx_transfer := true }
      { txFifoError := false, txTransferError := false, txTransferComplete := true,
        rxFifoError := false, rxTransferError := false, rxTransferComplete := false }
      PrepResult.ok
      (PrepResult.err (I2cError.noAcknowledge NackSource.unknown)) = none := by
  rfl

/-- C6: in `prepare_read(addr, buf_len)` with the bus sequencing succeeding,
a receive length of exactly 1 has the ACK bit cleared strictly before the ADDR
condition is cleared by the SR2 read, and a receive length greater than 1 has
no ACK clear at that point. -/
theorem c6_small_read_ack_timing (addr n : Nat) :
    (n = 1 →
      ∃ i j, i < j ∧
        ((prepare_read addr n PrepResult.ok PrepResult.ok).2).get? i =
          some Event.ackClear ∧
        ((prepare_read addr n PrepResult.ok PrepResult.ok).2).get? j =
          some Event.sr2Read) ∧
    (1 < n → Event.ackClear ∉ (prepare_read addr n PrepResult.ok PrepResult.ok).2) := by
  constructor
  · rintro rfl
    exact ⟨3, 4, by omega, rfl, rfl⟩
  · intro hn
    have h1 : ¬ n ≤ 1 := by omega
    simp [prepare_read, send_start, send_address, h1]

/-- C6 witness: at receive length 1 (address 80) the ACK clear precedes the SR2
read; at receive length 2 no ACK clear occurs. -/
theorem c6_small_read_ack_timing_witness :
    (∃ i j, i < j ∧
      ((prepare_read 80 1 PrepResult.ok PrepResult.ok).2).get? i =
        some Event.ackClear ∧
      ((prepare_read 80 1 PrepResult.ok PrepResult.ok).2).get? j =
        some Event.sr2Read) ∧
    Event.ackClear ∉ (prepare_read 80 2 PrepResult.ok PrepResult.ok).2 :=
  ⟨(c6_small_read_ack_timing 80 1).1 rfl,
   (c6_small_read_ack_timing 80 2).2 (by omega)⟩

/-- C7: finalization issues STOP if and only if the transaction result is a
not-acknowledged error: `finish_transfer_with_result` emits a STOP request for
every NACK result, and for no success or non-NACK-error result. -/
theorem c7_stop_iff_nack (s : DriverState) (r : TxnResult) :
    Event.stopSet ∈ (finish_transfer_with_result s r).2 ↔
      ∃ src, r = TxnResult.err (Error.i2cError (I2cError.noAcknowledge src)) := by
  have hcb : Event.stopSet ∉ (if s.callback = true then [Event.callback r] else []) := by
    split <;> simp
  have htx : Event.stopSet ∉ (if s.tx_transfer = true then [Event.txDestroyed] else []) := by
    split <;> simp
  have hrx : Event.stopSet ∉ (if s.rx_transfer = true then [Event.rxDestroyed] else []) := by
    split <;> simp
  rw [finish_spec]
  simp [List.mem_append, hcb, htx, hrx, stopSet_mem_stop_on_nack]

/-- C8: with the bus busy, each of `write_dma`, `read_dma` and `write_read_dma`
returns `WouldBlock`, leaves the driver state unchanged and performs no
hardware action at all (empty trace: no slot transition, no callback stored or
invoked, no DMA-request or interrupt enable bit touched). -/
theorem c8_busy_rejection (s : DriverState) (addr buf_len rxLen : Nat)
    (cb : Bool) (startChk addrChk : PrepResult) :
    write_dma s true addr cb startChk addrChk =
      some (NbResult.wouldBlock, s, []) ∧
    read_dma s true addr buf_len cb startChk addrChk =
      some (NbResult.wouldBlock, s, []) ∧
    write_read_dma s true addr rxLen cb startChk addrChk =
      some (NbResult.wouldBlock, s, []) :=
  ⟨rfl, rfl, rfl⟩

/-- C9: when `handle_dma_interrupt` finds the FIFO-error flag set on the
currently active stream, it clears that flag and does nothing else: the state
is unchanged and the only emitted action is the flag clear, even when a
transfer-error or transfer-complete flag is simultaneously pending. -/
theorem c9_fifo_error_only_cleared (s : DriverState) (f : DmaFlags)
    (startChk addrChk : PrepResult) :
    (s.tx_transfer = true → f.txFifoError = true →
      handle_dma_interrupt s f startChk addrChk =
        some (s, [Event.clearFifoErrorTx])) ∧
    (s.tx_transfer = false → s.rx_transfer = true → f.rxFifoError = true →
      handle_dma_interrupt s f startChk addrChk =
        some (s, [Event.clearFifoErrorRx])) := by
  constructor
  · intro h1 h2
    simp [handle_dma_interrupt, h1, h2]
  · intro h1 h2 h3
    simp [handle_dma_interrupt, h1, h2, h3]

/-- C9 witness: concrete Tx and Rx FIFO-error invocations, in both cases with
the transfer-complete flag simultaneously pending, only clear the FIFO flag. -/
theorem c9_fifo_error_only_cleared_witness :
    handle_dma_interrupt
      { callback := true, address := 80, rx_len := 0,
        tx := false, tx_stream := false, tx_transfer := true,
        rx := true, rx_stream := true, rx_transfer := false }
      { txFifoError := true, txTransferError := true, txTransferComplete := true,
        rxFifoError := false, rxTransferError := false, rxTransferComplete := false }
      PrepResult.ok PrepResult.ok =
      some ({ callback := true, address := 80, rx_len := 0,
              tx := false, tx_stream := false, tx_transfer := true,
              rx := true, rx_stream := true, rx_transfer := false },
        [Event.clearFifoErrorTx]) ∧
    handle_dma_interrupt
      { callback := true, address := 80, rx_len := 1,
        tx := true, tx_stream := true, tx_transfer := false,
        rx := false, rx_stream := false, rx_transfer := true }
      { txFifoError := false, txTransferError := false, txTransferComplete := false,
        rxFifoError := true, rxTransferError := true, rxTransferComplete := true }
      PrepResult.ok PrepResult.ok =
      some ({ callback := true, address := 80, rx_len := 1,
              tx := true, tx_stream := true, tx_transfer := false,
              rx := false, rx_stream := false, rx_transfer := true },
        [Event.clearFifoErrorRx]) :=
  ⟨(c9_fifo_error_only_cleared _ _ _ _).1 rfl rfl,
   (c9_fifo_error_only_cleared _ _ _ _).2 rfl rfl rfl⟩

/-- C1 counterexample: the claim requires both resource slots to be idle by
the time the user callback returns control.  On a concrete finalization of a
write transaction (Tx transfer live, callback stored), the finalization trace
invokes the callback at index 2 and restores the Tx slot (`txDestroyed`, the
only transition of a slot back to idle) only at index 3: while the callback
runs and when it returns, `tx_transfer` is still `Some`. -/
theorem c1_counterexample :
    (finish_transfer_with_result
      { callback := true, address := 80, rx_len := 2,
        tx := false, tx_stream := false, tx_transfer := true,
        rx := true, rx_stream := true, rx_transfer := false } TxnResult.ok).2 =
      [Event.dmaDisable, Event.errIntDisable, Event.callback TxnResult.ok,
       Event.txDestroyed] ∧
    List.indexOf (Event.callback TxnResult.ok)
      [Event.dmaDisable, Event.errIntDisable, Event.callback TxnResult.ok,
       Event.txDestroyed] <
    List.indexOf Event.txDestroyed
      [Event.dmaDisable, Event.errIntDisable, Event.callback TxnResult.ok,
       Event.txDestroyed] := by
  decide

/-- C1 (amended): after any transaction outcome, both resource slots are idle
by the time `finish_transfer_with_result` returns — before control returns
from the interrupt handler or from the initiating call — for every state
satisfying the slot-coherence invariant; the restoration happens after the
callback is invoked, not before (see the counterexample). -/
theorem c1_slots_idle_after_finalization (s : DriverState) (r : TxnResult)
    (h : slot_coherent s) :
    slots_idle (finish_transfer_with_result s r).1 := by
  obtain ⟨h1, h2⟩ := h
  have htx : (s.tx_transfer || s.tx) = true ∧ (s.tx_transfer || s.tx_stream) = true := by
    cases ht : s.tx_transfer
    · simpa using h1 ht
    · simp
  have hrx : (s.rx_transfer || s.rx) = true ∧ (s.rx_transfer || s.rx_stream) = true := by
    cases hr : s.rx_transfer
    · simpa using h2 hr
    · simp
  rw [finish_spec]
  exact ⟨htx.1, htx.2, rfl, hrx.1, hrx.2, rfl⟩

/-- C1 witness: finalizing a concrete coherent state (Tx transfer live)
leaves both slots idle. -/
theorem c1_slots_idle_after_finalization_witness :
    slots_idle (finish_transfer_with_result
      { callback := true, address := 80, rx_len := 2,
        tx := false, tx_stream := false, tx_transfer := true,
        rx := true, rx_stream := true, rx_transfer := false } TxnResult.ok).1 :=
  c1_slots_idle_after_finalization _ _
    ⟨fun hc => Bool.noConfusion hc, fun _ => ⟨rfl, rfl⟩⟩

/-- C2: whatever finalization paths execute, the supplied callback runs exactly
once and is consumed.  One `finish_transfer_with_result` invokes the stored
callback exactly once with the finalization result (and not at all when no
callback is stored), leaves the callback slot empty, and any subsequent
finalization attempt therefore invokes no callback. -/
theorem c2_callback_exactly_once (s : DriverState) (r r2 : TxnResult) :
    callbackEvents (finish_transfer_with_result s r).2 =
      (if s.callback then [Event.callback r] else []) ∧
    (finish_transfer_with_result s r).1.callback = false ∧
    callbackEvents
      (finish_transfer_with_result (finish_transfer_with_result s r).1 r2).2 = [] := by
  refine ⟨finish_callbackEvents s r, finish_callback_consumed s r, ?_⟩
  rw [finish_callbackEvents, finish_callback_consumed]
  simp

/-- C3 counterexample: the claim requires STOP to be requested before the
callback fires on success — "in particular on the Rx transfer-complete path
the STOP request precedes the callback invocation".  On a concrete Rx
transfer-complete interrupt the trace invokes the callback at index 3, tears
the Rx transfer down at index 4 and requests STOP only at index 6. -/
theorem c3_counterexample :
    handle_dma_interrupt
      { callback := true, address := 0, rx_len := 0,
        tx := true, tx_stream := true, tx_transfer := false,
        rx := false, rx_stream := false, rx_transfer := true }
      { txFifoError := false, txTransferError := false, txTransferComplete := false,
        rxFifoError := false, rxTransferError := false, rxTransferComplete := true }
      PrepResult.ok PrepResult.ok =
      some ({ callback := false, address := 0, rx_len := 0,
              tx := true, tx_stream := true, tx_transfer := false,
              rx := true, rx_stream := true, rx_transfer := false },
        [Event.clearTransferCompleteRx, Event.dmaDisable, Event.errIntDisable,
         Event.callback TxnResult.ok, Event.rxDestroyed, Event.ackClear,
         Event.stopSet]) ∧
    List.indexOf (Event.callback TxnResult.ok)
      [Event.clearTransferCompleteRx, Event.dmaDisable, Event.errIntDisable,
       Event.callback TxnResult.ok, Event.rxDestroyed, Event.ackClear,
       Event.stopSet] <
    List.indexOf Event.stopSet
      [Event.clearTransferCompleteRx, Event.dmaDisable, Event.errIntDisable,
       Event.callback TxnResult.ok, Event.rxDestroyed, Event.ackClear,
       Event.stopSet] := by
  decide

/-- C3 (amended): on every successfully completed transaction the callback
fires before STOP is requested, with both still inside the same handler
invocation: on the Tx transfer-complete (write-only) path the Tx transfer is
torn down, then the callback fires, then BTF is awaited and STOP requested;
on the Rx transfer-complete path the callback fires, then the Rx transfer is
torn down, then ACK is cleared and STOP requested. -/
theorem c3_success_ordering (s : DriverState) (f : DmaFlags)
    (startChk addrChk : PrepResult) :
    (s.tx_transfer = true → s.rx_transfer = false → s.callback = true →
     f.txFifoError = false → f.txTransferError = false →
     f.txTransferComplete = true →
      handle_dma_interrupt s f startChk addrChk =
        some ({ s with
                 callback := false, tx := true, tx_stream := true,
                 tx_transfer := false },
          [Event.clearTransferCompleteTx, Event.txDestroyed, Event.dmaDisable,
           Event.errIntDisable, Event.callback TxnResult.ok, Event.btfWait,
           Event.stopSet])) ∧
    (s.tx_transfer = false → s.rx_transfer = true → s.callback = true →
     f.rxFifoError = false → f.rxTransferError = false →
     f.rxTransferComplete = true →
      handle_dma_interrupt s f startChk addrChk =
        some ({ s with
                 callback := false, rx := true, rx_stream := true,
                 rx_transfer := false },
          [Event.clearTransferCompleteRx, Event.dmaDisable, Event.errIntDisable,
           Event.callback TxnResult.ok, Event.rxDestroyed, Event.ackClear,
           Event.stopSet])) := by
  constructor
  · intro h1 h2 h3 h4 h5 h6
    simp [handle_dma_interrupt, destroy_tx_transfer, finish_spec, stop_on_nack,
      send_stop, h1, h2, h3, h4, h5, h6]
  · intro h1 h2 h3 h4 h5 h6
    simp [handle_dma_interrupt, finish_spec, stop_on_nack, send_stop,
      h1, h2, h3, h4, h5, h6]

/-- C3 witness: the two orderings at concrete states. -/
theorem c3_success_ordering_witness :
    handle_dma_interrupt
      { callback := true, address := 80, rx_len := 0,
        tx := false, tx_stream := false, tx_transfer := true,
        rx := true, rx_stream := true, rx_transfer := false }
      { txFifoError := false, txTransferError := false, txTransferComplete := true,
        rxFifoError := false, rxTransferError := false, rxTransferComplete := false }
      PrepResult.ok PrepResult.ok =
      some ({ callback := false, address := 80, rx_len := 0,
              tx := true, tx_stream := true, tx_transfer := false,
              rx := true, rx_stream := true, rx_transfer := false },
        [Event.clearTransferCompleteTx, Event.txDestroyed, Event.dmaDisable,
         Event.errIntDisable, Event.callback TxnResult.ok, Event.btfWait,
         Event.stopSet]) ∧
    handle_dma_interrupt
      { callback := true, address := 80, rx_len := 2,
        tx := true, tx_stream := true, tx_transfer := false,
        rx := false, rx_stream := false, rx_transfer := true }
      { txFifoError := false, txTransferError := false, txTransferComplete := false,
        rxFifoError := false, rxTransferError := false, rxTransferComplete := true }
      PrepResult.ok PrepResult.ok =
      some ({ callback := false, address := 80, rx_len := 2,
              tx := true, tx_stream := true, tx_transfer := false,
              rx := true, rx_stream := true, rx_transfer := false },
        [Event.clearTransferCompleteRx, Event.dmaDisable, Event.errIntDisable,
         Event.callback TxnResult.ok, Event.rxDestroyed, Event.ackClear,
         Event.stopSet]) :=
  ⟨(c3_success_ordering _ _ _ _).1 rfl rfl rfl rfl rfl rfl,
   (c3_success_ordering _ _ _ _).2 rfl rfl rfl rfl rfl rfl⟩

/-- With no pending receive transfer, a DMA interrupt never panics, never
starts the receive transfer, and leaves `rx_transfer` absent. -/
theorem handle_dma_no_rx_pending (s : DriverState) (f : DmaFlags)
    (startChk addrChk : PrepResult) (h : s.rx_transfer = false) :
    ∃ s' tr, handle_dma_interrupt s f startChk addrChk = some (s', tr) ∧
      s'.rx_transfer = false ∧ Event.rxStarted ∉ tr := by
  cases htx : s.tx_transfer
  · refine ⟨s, [], ?_, h, by simp⟩
    simp [handle_dma_interrupt, htx, h]
  · cases hff : f.txFifoError
    · cases hte : f.txTransferError
      · cases htc : f.txTransferComplete
        · refine ⟨s, [], ?_, h, by simp⟩
          simp [handle_dma_interrupt, htx, hff, hte, htc]
        · refine ⟨(finish_transfer_with_result
              { s with tx_transfer := false, tx := true, tx_stream := true }
              TxnResult.ok).1,
            Event.clearTransferCompleteTx :: [Event.txDestroyed]
              ++ (finish_transfer_with_result
                  { s with tx_transfer := false, tx := true, tx_stream := true }
                  TxnResult.ok).2
              ++ [Event.btfWait] ++ send_stop, ?_,
            finish_rx_transfer_destroyed _ _, ?_⟩
          · simp [handle_dma_interrupt, htx, hff, hte, htc, h, destroy_tx_transfer]
          · intro hm
            simp [send_stop] at hm
            exact finish_no_rxStarted _ _ hm
      · refine ⟨(finish_transfer_with_result s (.err Error.transferError)).1,
          Event.clearTransferErrorTx ::
            (finish_transfer_with_result s (.err Error.transferError)).2, ?_,
          finish_rx_transfer_destroyed _ _, ?_⟩
        · simp [handle_dma_interrupt, htx, hff, hte]
        · intro hm
          simp at hm
          exact finish_no_rxStarted _ _ hm
    · refine ⟨s, [Event.clearFifoErrorTx], ?_, h, by simp⟩
      simp [handle_dma_interrupt, htx, hff]

/-- An error interrupt never starts the receive transfer, and preserves the
absence of a pending receive transfer. -/
theorem handle_error_no_rx (s : DriverState) (chk : PrepResult)
    (h : s.rx_transfer = false) :
    (handle_error_interrupt s chk).1.rx_transfer = false ∧
      Event.rxStarted ∉ (handle_error_interrupt s chk).2 := by
  rcases chk with _ | e
  · exact ⟨h, by simp [handle_error_interrupt]⟩
  · exact ⟨finish_rx_transfer_destroyed _ _, finish_no_rxStarted _ _⟩

/-- Once the pending receive transfer is gone, no sequence of interrupt-context
invocations panics, starts the receive transfer, or resurrects it. -/
theorem runIrqs_no_rx_start (cs : List IrqCall) (s : DriverState)
    (h : s.rx_transfer = false) :
    ∃ s' tr, runIrqs s cs = some (s', tr) ∧ s'.rx_transfer = false ∧
      Event.rxStarted ∉ tr := by
  induction cs generalizing s with
  | nil => exact ⟨s, [], rfl, h, by simp⟩
  | cons c cs ih =>
    cases c with
    | dma f a b =>
      obtain ⟨s1, tr1, hstep, h1, hn1⟩ := handle_dma_no_rx_pending s f a b h
      obtain ⟨s2, tr2, hrun, h2, hn2⟩ := ih s1 h1
      refine ⟨s2, tr1 ++ tr2, ?_, h2, ?_⟩
      · simp [runIrqs, hstep, hrun]
      · simp [List.mem_append, hn1, hn2]
    | err chk =>
      obtain ⟨h1, hn1⟩ := handle_error_no_rx s chk h
      obtain ⟨s2, tr2, hrun, h2, hn2⟩ := ih _ h1
      refine ⟨s2, (handle_error_interrupt s chk).2 ++ tr2, ?_, h2, ?_⟩
      · simp [runIrqs, hrun]
      · simp [List.mem_append, hn1, hn2]

/-- `rxStarted` can only be emitted by the Tx transfer-complete branch of the
DMA handler, with a pending receive transfer. -/
theorem handle_dma_rxStarted_source (s : DriverState) (f : DmaFlags)
    (startChk addrChk : PrepResult) (s' : DriverState) (tr : List Event)
    (heq : handle_dma_interrupt s f startChk addrChk = some (s', tr))
    (hmem : Event.rxStarted ∈ tr) :
    s.tx_transfer = true ∧ s.rx_transfer = true ∧ f.txTransferComplete = true := by
  cases htx : s.tx_transfer
  · cases hrx : s.rx_transfer
    · obtain ⟨s1, tr1, heq1, _, hn1⟩ :=
        handle_dma_no_rx_pending s f startChk addrChk hrx
      rw [heq] at heq1
      obtain ⟨rfl, rfl⟩ : s' = s1 ∧ tr = tr1 := by
        simpa using congrArg (fun o => o) heq1
      exact absurd hmem hn1
    · cases hff : f.rxFifoError
      · cases hte : f.rxTransferError
        · cases htc : f.rxTransferComplete
          · rw [handle_dma_interrupt] at heq
            simp [htx, hrx, hff, hte, htc] at heq
            obtain ⟨rfl, rfl⟩ := heq
            simp at hmem
          · rw [handle_dma_interrupt] at heq
            simp [htx, hrx, hff, hte, htc] at heq
            obtain ⟨rfl, rfl⟩ := heq
            simp [send_stop] at hmem
            exact absurd hmem (finish_no_rxStarted _ _)
        · rw [handle_dma_interrupt] at heq
          simp [htx, hrx, hff, hte] at heq
          obtain ⟨rfl, rfl⟩ := heq
          simp at hmem
          exact absurd hmem (finish_no_rxStarted _ _)
      · rw [handle_dma_interrupt] at heq
        simp [htx, hrx, hff] at heq
        obtain ⟨rfl, rfl⟩ := heq
        simp at hmem
  · cases hrx : s.rx_transfer
    · obtain ⟨s1, tr1, heq1, _, hn1⟩ :=
        handle_dma_no_rx_pending s f startChk addrChk hrx
      rw [heq] at heq1
      obtain ⟨rfl, rfl⟩ : s' = s1 ∧ tr = tr1 := by
        simpa using heq1
      exact absurd hmem hn1
    · refine ⟨rfl, rfl, ?_⟩
      cases hff : f.txFifoError
      · cases hte : f.txTransferError
        · cases htc : f.txTransferComplete
          · rw [handle_dma_interrupt] at heq
            simp [htx, hff, hte, htc] at heq
            obtain ⟨rfl, rfl⟩ := heq
            simp at hmem
          · rfl
        · rw [handle_dma_interrupt] at heq
          simp [htx, hff, hte] at heq
          obtain ⟨rfl, rfl⟩ := heq
          simp at hmem
          exact absurd hmem (finish_no_rxStarted _ _)
      · rw [handle_dma_interrupt] at heq
        simp [htx, hff] at heq
        obtain ⟨rfl, rfl⟩ := heq
        simp at hmem

/-- A stored callback is invoked by finalization with the finalization result. -/
theorem finish_callback_mem (s : DriverState) (r : TxnResult)
    (h : s.callback = true) :
    Event.callback r ∈ (finish_transfer_with_result s r).2 := by
  have h1 := finish_callbackEvents s r
  rw [h] at h1
  simp at h1
  have h2 : Event.callback r ∈ callbackEvents (finish_transfer_with_result s r).2 := by
    rw [h1]
    simp
  exact List.mem_of_mem_filter h2

/-- C4: for a `write_read_dma` transaction, the receive transfer is created at
call time but not started (i); it is started exactly when the transmit
transfer reports completion in `handle_dma_interrupt` (ii), and nowhere else
(v); a preparation failure of the write phase destroys the pending receive
transfer, and no later sequence of interrupt invocations ever starts it (iii);
an address NACK surfaced by the error interrupt during the write phase
likewise destroys the pending receive transfer and prevents it from ever
being started (iv). -/
theorem c4_write_read_sequencing (s : DriverState) (addr rxLen : Nat)
    (startChk addrChk : PrepResult) (e : I2cError) (f : DmaFlags)
    (cs : List IrqCall) :
    (s.tx = true → s.tx_stream = true → s.rx = true → s.rx_stream = true →
     (prepare_write addr startChk addrChk).1 = PrepResult.ok →
      ∃ s' tr, write_read_dma s false addr rxLen true startChk addrChk =
          some (NbResult.ok, s', tr) ∧
        Event.rxCreated ∈ tr ∧ Event.txStarted ∈ tr ∧ Event.rxStarted ∉ tr ∧
        s'.rx_transfer = true) ∧
    (s.tx_transfer = true → s.rx_transfer = true →
     f.txFifoError = false → f.txTransferError = false →
     f.txTransferComplete = true →
     (prepare_read s.address s.rx_len startChk addrChk).1 = PrepResult.ok →
      ∃ s' tr, handle_dma_interrupt s f startChk addrChk = some (s', tr) ∧
        Event.rxStarted ∈ tr) ∧
    (s.tx = true → s.tx_stream = true → s.rx = true → s.rx_stream = true →
     (prepare_write addr startChk addrChk).1 = PrepResult.err e →
      ∃ s' tr, write_read_dma s false addr rxLen true startChk addrChk =
          some (NbResult.other e, s', tr) ∧
        Event.rxStarted ∉ tr ∧ s'.rx_transfer = false ∧
        ∃ s2 tr2, runIrqs s' cs = some (s2, tr2) ∧ Event.rxStarted ∉ tr2) ∧
    (s.tx_transfer = true → s.rx_transfer = true →
      Event.rxStarted ∉
        (handle_error_interrupt s
          (PrepResult.err (I2cError.noAcknowledge NackSource.address))).2 ∧
      (handle_error_interrupt s
          (PrepResult.err (I2cError.noAcknowledge NackSource.address))).1.rx_transfer
        = false ∧
      ∃ s2 tr2, runIrqs
          (handle_error_interrupt s
            (PrepResult.err (I2cError.noAcknowledge NackSource.address))).1 cs =
          some (s2, tr2) ∧ Event.rxStarted ∉ tr2) ∧
    (∀ s' tr, handle_dma_interrupt s f startChk addrChk = some (s', tr) →
      Event.rxStarted ∈ tr →
      s.tx_transfer = true ∧ s.rx_transfer = true ∧ f.txTransferComplete = true) := by
  refine ⟨?_, ?_, ?_, ?_, ?_⟩
  · intro htx hts hrx hrs hok
    rcases hp : prepare_write addr startChk addrChk with ⟨p1, p2⟩
    rw [hp] at hok
    simp at hok
    subst hok
    have hnp : Event.rxStarted ∉ p2 := by
      have h0 := prepare_write_no_rxStarted addr startChk addrChk
      rw [hp] at h0
      exact h0
    refine ⟨{ s with
        address := addr, rx_len := rxLen, callback := true,
        tx := false, tx_stream := false, tx_transfer := true,
        rx := false, rx_stream := false, rx_transfer := true },
      Event.dmaEnable :: [Event.txCreated] ++ [Event.rxCreated] ++ p2
        ++ [Event.txStarted], ?_, by simp, by simp, ?_, rfl⟩
    · simp [write_read_dma, create_tx_transfer, create_rx_transfer,
        htx, hts, hrx, hrs, hp]
    · intro hm
      simp at hm
      exact hnp hm
  · intro htx hrx hff hte htc hok
    rcases hp : prepare_read s.address s.rx_len startChk addrChk with ⟨p1, p2⟩
    rw [hp] at hok
    simp at hok
    subst hok
    refine ⟨{ s with tx_transfer := false, tx := true, tx_stream := true },
      Event.clearTransferCompleteTx :: [Event.txDestroyed] ++ [Event.btfWait]
        ++ p2 ++ [Event.rxStarted], ?_, by simp⟩
    simp [handle_dma_interrupt, htx, hrx, hff, hte, htc,
      destroy_tx_transfer, hp]
  · intro htx hts hrx hrs herr
    rcases hp : prepare_write addr startChk addrChk with ⟨p1, p2⟩
    rw [hp] at herr
    simp at herr
    subst herr
    have hnp : Event.rxStarted ∉ p2 := by
      have h0 := prepare_write_no_rxStarted addr startChk addrChk
      rw [hp] at h0
      exact h0
    refine ⟨{ s with
        address := addr, rx_len := rxLen, callback := false,
        tx := true, tx_stream := true, tx_transfer := false,
        rx := true, rx_stream := true, rx_transfer := false },
      Event.dmaEnable :: [Event.txCreated] ++ [Event.rxCreated] ++ p2
        ++ (finish_transfer_with_result
            { s with
                address := addr, rx_len := rxLen, callback := true,
                tx := false, tx_stream := false, tx_transfer := true,
                rx := false, rx_stream := false, rx_transfer := true }
            (TxnResult.err (Error.i2cError e))).2, ?_, ?_, rfl, ?_⟩
    · simp [write_read_dma, create_tx_transfer, create_rx_transfer,
        htx, hts, hrx, hrs, hp, finish_spec]
    · intro hm
      simp at hm
      rcases hm with hm | hm
      · exact hnp hm
      · exact finish_no_rxStarted _ _ hm
    · obtain ⟨s2, tr2, hq, _, hn⟩ := runIrqs_no_rx_start cs
        { s with
            address := addr, rx_len := rxLen, callback := false,
            tx := true, tx_stream := true, tx_transfer := false,
            rx := true, rx_stream := true, rx_transfer := false } rfl
      exact ⟨s2, tr2, hq, hn⟩
  · intro htx hrx
    refine ⟨finish_no_rxStarted _ _, finish_rx_transfer_destroyed _ _, ?_⟩
    obtain ⟨s2, tr2, hq, _, hn⟩ :=
      runIrqs_no_rx_start cs _ (finish_rx_transfer_destroyed s
        (TxnResult.err (Error.i2cError (I2cError.noAcknowledge NackSource.address))))
    exact ⟨s2, tr2, hq, hn⟩
  · exact fun s' tr heq hm =>
      handle_dma_rxStarted_source s f startChk addrChk s' tr heq hm

/-- C4 witness: all five parts at concrete inputs — a full write-read
activation, the Tx-complete restart, a failed write preparation followed by
further interrupts, a write-phase address NACK followed by further interrupts,
and the only-source property at the concrete restart run. -/
theorem c4_write_read_sequencing_witness :
    (∃ s' tr, write_read_dma
        { callback := false, address := 0, rx_len := 0,
          tx := true, tx_stream := true, tx_transfer := false,
          rx := true, rx_stream := true, rx_transfer := false }
        false 80 2 true PrepResult.ok PrepResult.ok =
        some (NbResult.ok, s', tr) ∧
      Event.rxCreated ∈ tr ∧ Event.txStarted ∈ tr ∧ Event.rxStarted ∉ tr ∧
      s'.rx_transfer = true) ∧
    (∃ s' tr, handle_dma_interrupt
        { callback := true, address := 80, rx_len := 2,
          tx := false, tx_stream := false, tx_transfer := true,
          rx := false, rx_stream := false, rx_transfer := true }
        { txFifoError := false, txTransferError := false, txTransferComplete := true,
          rxFifoError := false, rxTransferError := false, rxTransferComplete := false }
        PrepResult.ok PrepResult.ok = some (s', tr) ∧
      Event.rxStarted ∈ tr) ∧
    (∃ s' tr, write_read_dma
        { callback := false, address := 0, rx_len := 0,
          tx := true, tx_stream := true, tx_transfer := false,
          rx := true, rx_stream := true, rx_transfer := false }
        false 80 2 true (PrepResult.err I2cError.bus) PrepResult.ok =
        some (NbResult.other I2cError.bus, s', tr) ∧
      Event.rxStarted ∉ tr ∧ s'.rx_transfer = false ∧
      ∃ s2 tr2, runIrqs s'
          [IrqCall.dma
            { txFifoError := false, txTransferError := false,
              txTransferComplete := true, rxFifoError := false,
              rxTransferError := false, rxTransferComplete := true }
            PrepResult.ok PrepResult.ok,
           IrqCall.err (PrepResult.err (I2cError.noAcknowledge NackSource.unknown))] =
          some (s2, tr2) ∧ Event.rxStarted ∉ tr2) ∧
    (Event.rxStarted ∉ (handle_error_interrupt
        { callback := true, address := 80, rx_len := 2,
          tx := false, tx_stream := false, tx_transfer := true,
          rx := false, rx_stream := false, rx_transfer := true }
        (PrepResult.err (I2cError.noAcknowledge NackSource.address))).2 ∧
      (handle_error_interrupt
        { callback := true, address := 80, rx_len := 2,
          tx := false, tx_stream := false, tx_transfer := true,
          rx := false, rx_stream := false, rx_transfer := true }
        (PrepResult.err (I2cError.noAcknowledge NackSource.address))).1.rx_transfer
        = false ∧
      ∃ s2 tr2, runIrqs
          (handle_error_interrupt
            { callback := true, address := 80, rx_len := 2,
              tx := false, tx_stream := false, tx_transfer := true,
              rx := false, rx_stream := false, rx_transfer := true }
            (PrepResult.err (I2cError.noAcknowledge NackSource.address))).1
          [IrqCall.dma
            { txFifoError := false, txTransferError := false,
              txTransferComplete := true, rxFifoError := false,
              rxTransferError := false, rxTransferComplete := true }
            PrepResult.ok PrepResult.ok] =
          some (s2, tr2) ∧ Event.rxStarted ∉ tr2) ∧
    (({ callback := true, address := 80, rx_len := 2,
        tx := false, tx_stream := false, tx_transfer := true,
        rx := false, rx_stream := false, rx_transfer := true } : DriverState).tx_transfer
        = true ∧
     ({ callback := true, address := 80, rx_len := 2,
        tx := false, tx_stream := false, tx_transfer := true,
        rx := false, rx_stream := false, rx_transfer := true } : DriverState).rx_transfer
        = true ∧
     ({ txFifoError := false, txTransferError := false, txTransferComplete := true,
        rxFifoError := false, rxTransferError := false,
        rxTransferComplete := false } : DmaFlags).txTransferComplete = true) :=
  ⟨(c4_write_read_sequencing
      { callback := false, address := 0, rx_len := 0,
        tx := true, tx_stream := true, tx_transfer := false,
        rx := true, rx_stream := true, rx_transfer := false }
      80 2 PrepResult.ok PrepResult.ok I2cError.bus
      { txFifoError := false, txTransferError := false, txTransferComplete := false,
        rxFifoError := false, rxTransferError := false, rxTransferComplete := false }
      []).1 rfl rfl rfl rfl rfl,
   (c4_write_read_sequencing
      { callback := true, address := 80, rx_len := 2,
        tx := false, tx_stream := false, tx_transfer := true,
        rx := false, rx_stream := false, rx_transfer := true }
      0 0 PrepResult.ok PrepResult.ok I2cError.bus
      { txFifoError := false, txTransferError := false, txTransferComplete := true,
        rxFifoError := false, rxTransferError := false, rxTransferComplete := false }
      []).2.1 rfl rfl rfl rfl rfl rfl,
   (c4_write_read_sequencing
      { callback := false, address := 0, rx_len := 0,
        tx := true, tx_stream := true, tx_transfer := false,
        rx := true, rx_stream := true, rx_transfer := false }
      80 2 (PrepResult.err I2cError.bus) PrepResult.ok I2cError.bus
      { txFifoError := false, txTransferError := false, txTransferComplete := false,
        rxFifoError := false, rxTransferError := false, rxTransferComplete := false }
      [IrqCall.dma
        { txFifoError := false, txTransferError := false,
          txTransferComplete := true, rxFifoError := false,
          rxTransferError := false, rxTransferComplete := true }
        PrepResult.ok PrepResult.ok,
       IrqCall.err (PrepResult.err (I2cError.noAcknowledge NackSource.unknown))]).2.2.1
      rfl rfl rfl rfl rfl,
   (c4_write_read_sequencing
      { callback := true, address := 80, rx_len := 2,
        tx := false, tx_stream := false, tx_transfer := true,
        rx := false, rx_stream := false, rx_transfer := true }
      0 0 PrepResult.ok PrepResult.ok I2cError.bus
      { txFifoError := false, txTransferError := false, txTransferComplete := false,
        rxFifoError := false, rxTransferError := false, rxTransferComplete := false }
      [IrqCall.dma
        { txFifoError := false, txTransferError := false,
          txTransferComplete := true, rxFifoError := false,
          rxTransferError := false, rxTransferComplete := true }
        PrepResult.ok PrepResult.ok]).2.2.2.1 rfl rfl,
   (c4_write_read_sequencing
      { callback := true, address := 80, rx_len := 2,
        tx := false, tx_stream := false, tx_transfer := true,
        rx := false, rx_stream := false, rx_transfer := true }
      0 0 PrepResult.ok PrepResult.ok I2cError.bus
      { txFifoError := false, txTransferError := false, txTransferComplete := true,
        rxFifoError := false, rxTransferError := false, rxTransferComplete := false }
      []).2.2.2.2
      { callback := true, address := 80, rx_len := 2,
        tx := true, tx_stream := true, tx_transfer := false,
        rx := false, rx_stream := false, rx_transfer := true }
      [Event.clearTransferCompleteTx, Event.txDestroyed, Event.btfWait,
       Event.startSet, Event.ackSet, Event.addrSent 80 true, Event.sr2Read,
       Event.errIntEnable, Event.rxStarted]
      rfl (by decide)⟩

/-- C10: every preparation-stage failure in `write_dma`, `read_dma` and
`write_read_dma` is both returned synchronously as that error and, when a
callback was supplied, delivered to the callback with the same error result
before the call returns. -/
theorem c10_prep_failure_sync_and_callback (s : DriverState)
    (addr buf_len rxLen : Nat) (startChk addrChk : PrepResult) (e : I2cError) :
    (s.tx = true → s.tx_stream = true →
     (prepare_write addr startChk addrChk).1 = PrepResult.err e →
      ∃ s' tr, write_dma s false addr true startChk addrChk =
          some (NbResult.other e, s', tr) ∧
        Event.callback (TxnResult.err (Error.i2cError e)) ∈ tr) ∧
    (s.rx = true → s.rx_stream = true →
     (prepare_read addr buf_len startChk addrChk).1 = PrepResult.err e →
      ∃ s' tr, read_dma s false addr buf_len true startChk addrChk =
          some (NbResult.other e, s', tr) ∧
        Event.callback (TxnResult.err (Error.i2cError e)) ∈ tr) ∧
    (s.tx = true → s.tx_stream = true → s.rx = true → s.rx_stream = true →
     (prepare_write addr startChk addrChk).1 = PrepResult.err e →
      ∃ s' tr, write_read_dma s false addr rxLen true startChk addrChk =
          some (NbResult.other e, s', tr) ∧
        Event.callback (TxnResult.err (Error.i2cError e)) ∈ tr) := by
  refine ⟨?_, ?_, ?_⟩
  · intro htx hts herr
    rcases hp : prepare_write addr startChk addrChk with ⟨p1, p2⟩
    rw [hp] at herr
    simp at herr
    subst herr
    refine ⟨(finish_transfer_with_result
            { s with
                callback := true, tx := false, tx_stream := false,
                tx_transfer := true }
            (TxnResult.err (Error.i2cError e))).1,
      Event.dmaEnable :: [Event.txCreated] ++ p2
        ++ (finish_transfer_with_result
            { s with
                callback := true, tx := false, tx_stream := false,
                tx_transfer := true }
            (TxnResult.err (Error.i2cError e))).2, ?_, ?_⟩
    · simp [write_dma, create_tx_transfer, htx, hts, hp]
    · have hc : Event.callback (TxnResult.err (Error.i2cError e)) ∈
          (finish_transfer_with_result
            { s with
                callback := true, tx := false, tx_stream := false,
                tx_transfer := true }
            (TxnResult.err (Error.i2cError e))).2 :=
        finish_callback_mem _ _ rfl
      simp [hc]
  · intro hrx hrs herr
    rcases hp : prepare_read addr buf_len startChk addrChk with ⟨p1, p2⟩
    rw [hp] at herr
    simp at herr
    subst herr
    refine ⟨(finish_transfer_with_result
            { s with
                callback := true, rx := false, rx_stream := false,
                rx_transfer := true }
            (TxnResult.err (Error.i2cError e))).1,
      Event.dmaEnable :: [Event.rxCreated] ++ p2
        ++ (finish_transfer_with_result
            { s with
                callback := true, rx := false, rx_stream := false,
                rx_transfer := true }
            (TxnResult.err (Error.i2cError e))).2, ?_, ?_⟩
    · simp [read_dma, create_rx_transfer, hrx, hrs, hp]
    · have hc : Event.callback (TxnResult.err (Error.i2cError e)) ∈
          (finish_transfer_with_result
            { s with
                callback := true, rx := false, rx_stream := false,
                rx_transfer := true }
            (TxnResult.err (Error.i2cError e))).2 :=
        finish_callback_mem _ _ rfl
      simp [hc]
  · intro htx hts hrx hrs herr
    rcases hp : prepare_write addr startChk addrChk with ⟨p1, p2⟩
    rw [hp] at herr
    simp at herr
    subst herr
    refine ⟨(finish_transfer_with_result
            { s with
                address := addr, rx_len := rxLen, callback := true,
                tx := false, tx_stream := false, tx_transfer := true,
                rx := false, rx_stream := false, rx_transfer := true }
            (TxnResult.err (Error.i2cError e))).1,
      Event.dmaEnable :: [Event.txCreated] ++ [Event.rxCreated] ++ p2
        ++ (finish_transfer_with_result
            { s with
                address := addr, rx_len := rxLen, callback := true,
                tx := false, tx_stream := false, tx_transfer := true,
                rx := false, rx_stream := false, rx_transfer := true }
            (TxnResult.err (Error.i2cError e))).2, ?_, ?_⟩
    · simp [write_read_dma, create_tx_transfer, create_rx_transfer,
        htx, hts, hrx, hrs, hp]
    · have hc : Event.callback (TxnResult.err (Error.i2cError e)) ∈
          (finish_transfer_with_result
            { s with
                address := addr, rx_len := rxLen, callback := true,
                tx := false, tx_stream := false, tx_transfer := true,
                rx := false, rx_stream := false, rx_transfer := true }
            (TxnResult.err (Error.i2cError e))).2 :=
        finish_callback_mem _ _ rfl
      simp [hc]

/-- C10 witness: a failed start phase (bus error during START) on each of the
three entry points is returned synchronously and delivered to the callback. -/
theorem c10_prep_failure_sync_and_callback_witness :
    (∃ s' tr, write_dma
        { callback := false, address := 0, rx_len := 0,
          tx := true, tx_stream := true, tx_transfer := false,
          rx := true, rx_stream := true, rx_transfer := false }
        false 80 true (PrepResult.err I2cError.bus) PrepResult.ok =
        some (NbResult.other I2cError.bus, s', tr) ∧
      Event.callback (TxnResult.err (Error.i2cError I2cError.bus)) ∈ tr) ∧
    (∃ s' tr, read_dma
        { callback := false, address := 0, rx_len := 0,
          tx := true, tx_stream := true, tx_transfer := false,
          rx := true, rx_stream := true, rx_transfer := false }
        false 80 2 true (PrepResult.err I2cError.bus) PrepResult.ok =
        some (NbResult.other I2cError.bus, s', tr) ∧
      Event.callback (TxnResult.err (Error.i2cError I2cError.bus)) ∈ tr) ∧
    (∃ s' tr, write_read_dma
        { callback := false, address := 0, rx_len := 0,
          tx := true, tx_stream := true, tx_transfer := false,
          rx := true, rx_stream := true, rx_transfer := false }
        false 80 2 true (PrepResult.err I2cError.bus) PrepResult.ok =
        some (NbResult.other I2cError.bus, s', tr) ∧
      Event.callback (TxnResult.err (Error.i2cError I2cError.bus)) ∈ tr) :=
  ⟨(c10_prep_failure_sync_and_callback
      { callback := false, address := 0, rx_len := 0,
        tx := true, tx_stream := true, tx_transfer := false,
        rx := true, rx_stream := true, rx_transfer := false }
      80 2 2 (PrepResult.err I2cError.bus) PrepResult.ok I2cError.bus).1 rfl rfl rfl,
   (c10_prep_failure_sync_and_callback
      { callback := false, address := 0, rx_len := 0,
        tx := true, tx_stream := true, tx_transfer := false,
        rx := true, rx_stream := true, rx_transfer := false }
      80 2 2 (PrepResult.err I2cError.bus) PrepResult.ok I2cError.bus).2.1 rfl rfl rfl,
   (c10_prep_failure_sync_and_callback
      { callback := false, address := 0, rx_len := 0,
        tx := true, tx_stream := true, tx_transfer := false,
        rx := true, rx_stream := true, rx_transfer := false }
      80 2 2 (PrepResult.err I2cError.bus) PrepResult.ok I2cError.bus).2.2
      rfl rfl rfl rfl rfl⟩

end I2cDma
